import Mathlib

/-!
Shallow embedding of the comment sampling / classification / rating engine of
`src/server/services/sentiment.ts` (class `SentimentService` and its helper
functions), over the data model of `src/shared/schema.ts`.

Conventions:
* JavaScript numbers are modelled as `ℚ`; `Math.floor`/`Math.round`/`Math.max`/
  `Math.min` become the corresponding exact operations on `ℚ`.
* JavaScript string length (`.length`, UTF-16 code units) is `jsStrLen`: each
  scalar above `0xFFFF` counts as two code units (a surrogate pair).
* The external sentiment service (network) is modelled by an oracle
  `List String → Option (List LabeledScore)`: `some rs` is a successful
  response carrying `results`, `none` is any failure of the request (rejection,
  timeout, non-ok status, or a response whose `results` is not an array).
* The health check result is a `Bool` parameter.
* `Array.prototype.sort` with the engagement comparator is a stable sort by
  descending engagement score (`stableSortDesc`); the random shuffle
  `.sort(() => Math.random() - 0.5)` is an opaque function parameter.
* Mutation of the caller's array by the in-place sort is modelled by
  `commentsAfterAnalyze`, the order the caller's list holds after the call.
-/

/-- `Math.round` of JavaScript: round half toward positive infinity. -/
def jsRound (q : ℚ) : ℤ := ⌊q + 1/2⌋

/-- `Math.round(q * 100) / 100`, the two-decimal rounding used by the code. -/
def round2 (q : ℚ) : ℚ := ((jsRound (q * 100) : ℚ)) / 100

/-- `Math.max(lo, Math.min(hi, q))`. -/
def clampQ (lo hi q : ℚ) : ℚ := max lo (min hi q)

/-- JavaScript string length in UTF-16 code units: astral scalars count twice. -/
def jsStrLen (s : String) : ℕ :=
  s.data.foldl (fun n c => n + (if c.toNat ≥ 0x10000 then 2 else 1)) 0

/-- Contiguous-sublist test on character lists (JavaScript `String.includes`). -/
def charsInfix (needle hay : List Char) : Bool :=
  match hay with
  | [] => needle.isEmpty
  | _ :: t => needle.isPrefixOf hay || charsInfix needle t

/-- JavaScript `hay.includes(needle)` on our strings. -/
def strIncludes (hay needle : String) : Bool := charsInfix needle.data hay.data

/-- ASCII lower-casing of a string, as `toLowerCase` acts on the texts used here. -/
def lowerStr (s : String) : String := String.mk (s.data.map Char.toLower)

/-- A word character for the JavaScript regex boundary `\b`: `[A-Za-z0-9_]`. -/
def isWordChar (c : Char) : Bool := c.isAlphanum || c = '_'

/-- Maximal runs of word characters of a character list (used for `\b`-delimited
regex alternations: `\b(w1|w2|...)\b` matches iff some complete run equals one
of the alternatives, and `\b\d+\b` matches iff some complete run is all digits). -/
def wordRunsAux : List Char → List Char → List (List Char)
  | [], cur => if cur.isEmpty then [] else [cur.reverse]
  | c :: cs, cur =>
    if isWordChar c then wordRunsAux cs (c :: cur)
    else if cur.isEmpty then wordRunsAux cs []
    else cur.reverse :: wordRunsAux cs []

/-- Maximal word-character runs of a string. -/
def wordRuns (s : String) : List (List Char) := wordRunsAux s.data []

/-- `/(.)\1{4,}/`: some non-line-terminator character repeated 5+ times in a row. -/
def hasRepeatedRun : List Char → Bool
  | a :: b :: c :: d :: e :: rest =>
    (!(a = '\n' || a = '\r') && a = b && b = c && c = d && d = e) ||
      hasRepeatedRun (b :: c :: d :: e :: rest)
  | _ => false

/-- The `Comment` record of `src/shared/schema.ts` (the fields this engine
reads; the derived fields the engine writes — sentiment, sentiment score, trust
score — are tracked separately in the embedding, and the three boolean flags
appear here because `calculateTrustScore` reads them from the record). -/
structure Comment where
  id : String
  videoId : String
  authorDisplayName : String
  textOriginal : String
  likeCount : ℕ
  isVerified : Bool
  isSpam : Bool
  isBotLike : Bool
  isSuspicious : Bool
deriving DecidableEq

/-- The `Video` fields read by the engine (`src/shared/schema.ts`). -/
structure Video where
  viewCount : ℕ
  likeCount : ℕ
  commentCount : ℕ
deriving DecidableEq

/-- Sentiment labels as produced by the gateway's label mapping. -/
inductive SentimentLabel
  | positive
  | negative
  | neutral
deriving DecidableEq

/-- A per-comment sentiment result: label and score. -/
structure SentimentResult where
  sentiment : SentimentLabel
  score : ℚ
deriving DecidableEq

/-- A raw `{label, score}` entry of the external service's `results` array. -/
structure LabeledScore where
  label : String
  score : ℚ
deriving DecidableEq

/-- Quality indicator record (`QualityIndicator` interface of sentiment.ts). -/
structure QualityIndicator where
  type : String
  label : String
  icon : String
  color : String
deriving DecidableEq

/-- The record returned by `SentimentService.analyzeComments`. -/
structure InsertAnalysis where
  videoId : String
  totalComments : ℕ
  positiveCount : ℕ
  negativeCount : ℕ
  neutralCount : ℕ
  suspiciousCount : ℕ
  spamCount : ℕ
  botLikeCount : ℕ
  verifiedCount : ℕ
  rating : ℚ
  confidence : ℚ
  qualityIndicators : List QualityIndicator
  engagementQuality : String
deriving DecidableEq

/-- Spam phrase list of `SentimentService.detectSpam`. -/
def spamIndicators : List String :=
  ["subscribe", "check out my channel", "visit my channel", "follow me",
   "like and subscribe", "smash the like button", "click the link",
   "free money", "make money", "earn money", "get rich quick"]

/-- `SentimentService.detectSpam`: lower-cased text contains a spam phrase. -/
def detectSpam (c : Comment) : Bool :=
  let text := lowerStr c.textOriginal
  spamIndicators.any (fun ind => strIncludes text ind)

/-- `/^[A-Z\s!]+$/` of `detectBotBehavior`: nonempty, all upper-case letters,
whitespace or exclamation marks. -/
def allCapsBang (s : String) : Bool :=
  !s.data.isEmpty && s.data.all (fun c => c.isUpper || c.isWhitespace || c = '!')

/-- `/^[A-Za-z]+\d+$/`: one or more letters followed by one or more digits. -/
def genericUserPattern (s : String) : Bool :=
  let cs := s.data
  let alphaRun := cs.takeWhile Char.isAlpha
  let rest := cs.drop alphaRun.length
  !alphaRun.isEmpty && !rest.isEmpty && rest.all Char.isDigit

/-- `SentimentService.detectBotBehavior`. -/
def detectBotBehavior (c : Comment) : Bool :=
  let text := c.textOriginal
  (jsStrLen text < 10) ||
    allCapsBang text ||
    hasRepeatedRun text.data ||
    (strIncludes c.authorDisplayName ("RandomUser") ||
      strIncludes c.authorDisplayName ("User123") ||
      genericUserPattern c.authorDisplayName)

/-- `/\?/.test(text)`. -/
def hasQuestions (s : String) : Bool := s.data.any (fun c => c = '?')

/-- Time-unit words of the `hasSpecificDetails` regex. -/
def detailWords : List (List Char) :=
  (["minute", "hour", "day", "week", "month", "year"]).map String.data

/-- `/\b(minute|hour|day|week|month|year|\d+)\b/.test(text)`: some complete
word run is one of the listed words or a digit run. -/
def hasSpecificDetails (s : String) : Bool :=
  (wordRuns s).any (fun t => detailWords.contains t || (!t.isEmpty && t.all Char.isDigit))

/-- First-person words of the `hasPersonalExperience` regex. -/
def personalWords : List (List Char) :=
  (["i", "my", "me", "tried", "used", "bought", "purchased"]).map String.data

/-- `/\b(I|my|me|tried|used|bought|purchased)\b/i.test(text)`. -/
def hasPersonalExperience (s : String) : Bool :=
  (wordRuns s).any (fun t => personalWords.contains (t.map Char.toLower))

/-- `/[\uD800-\uDBFF][\uDC00-\uDFFF]/.test(text)`: the text holds an astral
character (a UTF-16 surrogate pair). -/
def hasEmojis (s : String) : Bool := s.data.any (fun c => c.toNat ≥ 0x10000)

/-- `/[!]{3,}|[?]{3,}|[.]{3,}/.test(text)`. -/
def hasExcessivePunctuation (s : String) : Bool :=
  strIncludes s ("!!!") || strIncludes s ("???") || strIncludes s ("...")

/-- `/^[A-Z\s!?.,]{10,}$/.test(text)`. -/
def hasAllCaps (s : String) : Bool :=
  jsStrLen s ≥ 10 &&
    s.data.all (fun c => c.isUpper || c.isWhitespace || c = '!' || c = '?' || c = '.' || c = ',')

/-- `SentimentService.calculateTrustScore`, translated statement by statement:
each `if (cond) score += a` / `score -= a` becomes one `let` rebinding. -/
def calculateTrustScore (c : Comment) : ℚ :=
  let len := jsStrLen c.textOriginal
  let score : ℚ := 5
  let score := if c.isVerified then score + 3 else score
  let score := if c.likeCount > 20 then score + 2
    else if c.likeCount > 5 then score + 1 else score
  let score := if len > 100 then score + 3/2
    else if len > 50 then score + 1 else score
  let score := if hasSpecificDetails c.textOriginal then score + 1 else score
  let score := if hasPersonalExperience c.textOriginal then score + 1 else score
  let score := if hasQuestions c.textOriginal then score + 1/2 else score
  let likeEngagement : ℚ := (c.likeCount : ℚ) / max 1 ((len : ℚ) / 10)
  let score := if likeEngagement > 2 then score + 1 else score
  let score := if c.isSpam then score - 5 else score
  let score := if c.isBotLike then score - 4 else score
  let score := if c.isSuspicious then score - 3 else score
  let score := if c.likeCount = 0 ∧ len < 20 then score - 2 else score
  let score := if hasAllCaps c.textOriginal then score - 1 else score
  let score := if hasExcessivePunctuation c.textOriginal then score - 1/2 else score
  let score := if hasEmojis c.textOriginal ∧ len < 50 then score - 1/2 else score
  max 0 (min 10 score)

/-- Engagement score used by both sort comparators in `analyzeComments`
(lines 205–227): `(likeCount || 0) + textOriginal.length / 10 + (isVerified ? 10 : 0)`. -/
def engagementScore (c : Comment) : ℚ :=
  (c.likeCount : ℚ) + (jsStrLen c.textOriginal : ℚ) / 10 + (if c.isVerified then 10 else 0)

/-- Stable insertion step: the new element `a` (earlier in the original order)
is placed before every element of not strictly greater key. -/
def stableInsertDesc (key : Comment → ℚ) (a : Comment) : List Comment → List Comment
  | [] => [a]
  | b :: l => if key a < key b then b :: stableInsertDesc key a l else a :: b :: l

/-- Stable sort by descending key, ties in original order: the extensional
behavior of `Array.prototype.sort` (which is stable) with the comparator
`(a, b) => bScore - aScore`. -/
def stableSortDesc (key : Comment → ℚ) : List Comment → List Comment
  | [] => []
  | a :: l => stableInsertDesc key a (stableSortDesc key l)

/-- An entry of the `ANALYSIS_MODES` table. -/
structure AnalysisMode where
  maxComments : ℕ
  batchSize : ℕ
  strategy : String
deriving DecidableEq

/-- `ANALYSIS_MODES.FAST`. -/
def FAST : AnalysisMode := ⟨150, 30, "top_engagement"⟩

/-- `ANALYSIS_MODES.BALANCED`. -/
def BALANCED : AnalysisMode := ⟨300, 50, "stratified"⟩

/-- `ANALYSIS_MODES.COMPREHENSIVE`. -/
def COMPREHENSIVE : AnalysisMode := ⟨500, 75, "stratified"⟩

/-- Mode selection of `analyzeComments` (lines 193–198). -/
def chooseMode (n : ℕ) : AnalysisMode :=
  if n < 200 then FAST else if n > 1000 then COMPREHENSIVE else BALANCED

/-- The sampling stage of `analyzeComments` (lines 202–244), producing
`commentsToAnalyze`. `shuffle` models the `.sort(() => Math.random() - 0.5)`
shuffle of the remaining comments; `Math.floor(x * 0.4)` and
`Math.floor(x * 0.3)` are the exact `(x*4)/10` and `(x*3)/10`. -/
def sampleComments (shuffle : List Comment → List Comment) (comments : List Comment) :
    List Comment :=
  let mode := chooseMode comments.length
  if mode.strategy = FAST.strategy then
    (stableSortDesc engagementScore comments).take mode.maxComments
  else if mode.strategy = BALANCED.strategy then
    let topCount := (mode.maxComments * 4) / 10
    let middleCount := (mode.maxComments * 4) / 10
    let randomCount := mode.maxComments - topCount - middleCount
    let sortedComments := stableSortDesc engagementScore comments
    let topComments := sortedComments.take topCount
    let middleComments := (sortedComments.drop ((sortedComments.length * 3) / 10)).take middleCount
    let remainingComments := sortedComments.drop (topCount + middleCount)
    let randomComments := (shuffle remainingComments).take randomCount
    topComments ++ middleComments ++ randomComments
  else
    comments.take mode.maxComments

/-- The order the caller's comment array holds after `analyzeComments` returns:
both the top-engagement branch (line 208) and the stratified branch (line 222)
sort the caller's array in place with the engagement comparator before slicing;
the dead fallback branch leaves it untouched. -/
def commentsAfterAnalyze (comments : List Comment) : List Comment :=
  let mode := chooseMode comments.length
  if mode.strategy = FAST.strategy then stableSortDesc engagementScore comments
  else if mode.strategy = BALANCED.strategy then stableSortDesc engagementScore comments
  else comments

/-- Positive keyword list of `simpleSentimentAnalysis`. -/
def positiveWords : List String :=
  ["good", "great", "amazing", "awesome", "love", "like", "excellent",
   "perfect", "best", "wonderful", "fantastic", "brilliant"]

/-- Negative keyword list of `simpleSentimentAnalysis`. -/
def negativeWords : List String :=
  ["bad", "terrible", "awful", "hate", "dislike", "worst", "horrible",
   "disappointing", "waste", "boring", "stupid"]

/-- The local keyword fallback classifier `simpleSentimentAnalysis`. -/
def simpleSentimentAnalysis (text : String) : SentimentResult :=
  let lowerText := lowerStr text
  let positiveCount := positiveWords.countP (fun w => strIncludes lowerText w)
  let negativeCount := negativeWords.countP (fun w => strIncludes lowerText w)
  if positiveCount > negativeCount then ⟨SentimentLabel.positive, 8/10⟩
  else if negativeCount > positiveCount then ⟨SentimentLabel.negative, 2/10⟩
  else ⟨SentimentLabel.neutral, 1/2⟩

/-- `analyzeSentimentsWithHuggingFace` for one batch: on a successful response
its `results` entries are label-mapped; any failure is caught inside the
function itself (lines 54–62) and yields neutral `0.5` for each text of the
batch. -/
def analyzeSentimentsWithHuggingFace (oracle : List String → Option (List LabeledScore))
    (texts : List String) : List SentimentResult :=
  match oracle texts with
  | some results =>
    results.map (fun r =>
      ⟨if r.label = "positive" then SentimentLabel.positive
        else if r.label = "negative" then SentimentLabel.negative
        else SentimentLabel.neutral, r.score⟩)
  | none => texts.map (fun _ => ⟨SentimentLabel.neutral, 1/2⟩)

/-- The batching loop of lines 270–273: slices of `batchSize` texts. -/
def chunkList (bs : ℕ) (l : List String) : List (List String) :=
  match bs, l with
  | _, [] => []
  | 0, _ :: _ => []
  | Nat.succ b, a :: t =>
    (a :: t).take (b + 1) :: chunkList (b + 1) ((a :: t).drop (b + 1))
termination_by l.length
decreasing_by simp [List.drop]; omega

/-- The classification stage of `analyzeComments` (lines 256–297): if the
health check succeeded, dispatch the batches and concatenate their results in
batch order; otherwise classify every text with the local keyword fallback.
The `catch` of lines 286–292 is unreachable for request failures, because each
batch's failure is already caught inside `analyzeSentimentsWithHuggingFace`,
so no branch of it appears here. -/
def runSentiments (healthy : Bool) (oracle : List String → Option (List LabeledScore))
    (bs : ℕ) (texts : List String) : List SentimentResult :=
  if healthy then
    ((chunkList bs texts).map (analyzeSentimentsWithHuggingFace oracle)).flatten
  else
    texts.map simpleSentimentAnalysis

/-- Per-comment weight of the rating formula (line 346):
`1 + (likeCount || 0) / 10 + (isVerified ? 0.5 : 0)`. -/
def weightOf (c : Comment) : ℚ :=
  1 + (c.likeCount : ℚ) / 10 + (if c.isVerified then 1/2 else 0)

/-- Sum of the weights of the sampled comments carrying a given sentiment
label (the accumulation loop of lines 344–350). -/
def weightedSumFor (pairs : List (Comment × SentimentResult)) (lab : SentimentLabel) : ℚ :=
  ((pairs.filter (fun p => p.2.sentiment = lab)).map (fun p => weightOf p.1)).sum

/-- The sampled comments zipped with their sentiments: the classification
results padded with neutral `0.5` entries (the `while` loop of lines 300–302)
and merged by index (lines 304–308). -/
def annotatedOf (healthy : Bool) (oracle : List String → Option (List LabeledScore))
    (shuffle : List Comment → List Comment) (comments : List Comment) :
    List (Comment × SentimentResult) :=
  let sampled := sampleComments shuffle comments
  let texts := sampled.map (fun c => c.textOriginal)
  let sentiments := runSentiments healthy oracle (chooseMode comments.length).batchSize texts
  sampled.zip (sentiments ++ List.replicate (sampled.length - sentiments.length)
    ⟨SentimentLabel.neutral, 1/2⟩)

/-- A JavaScript number that may be the `NaN` produced by `0 / 0`. In every
use below the dividend is at most the divisor, so `Infinity` cannot arise. -/
inductive JSNum
  | nan
  | num (q : ℚ)
deriving DecidableEq

/-- JavaScript division as used for the percentage computations. -/
def jsDiv (a b : ℚ) : JSNum := if b = 0 then JSNum.nan else JSNum.num (a / b)

/-- Multiplication of a possibly-NaN number by a constant. -/
def JSNum.mulC : JSNum → ℚ → JSNum
  | JSNum.nan, _ => JSNum.nan
  | JSNum.num q, k => JSNum.num (q * k)

/-- JavaScript `<` on a possibly-NaN left operand: false for NaN. -/
def JSNum.ltC : JSNum → ℚ → Bool
  | JSNum.nan, _ => false
  | JSNum.num q, c => decide (q < c)

/-- JavaScript `>` on a possibly-NaN left operand: false for NaN. -/
def JSNum.gtC : JSNum → ℚ → Bool
  | JSNum.nan, _ => false
  | JSNum.num q, c => decide (q > c)

/-- The string interpolation of `Math.round` of a possibly-NaN percentage. -/
def JSNum.roundStr : JSNum → String
  | JSNum.nan => "NaN"
  | JSNum.num q => toString (jsRound q)

/-- The engagement modifier of lines 361–379: `1.0` without video stats,
otherwise the average of the like-ratio score and the comment-ratio score. -/
def engagementScoreOf (video : Option Video) : ℚ :=
  match video with
  | none => 1
  | some v =>
    let likeRate : ℚ := (v.likeCount : ℚ) / max 1 (v.viewCount : ℚ)
    let commentRate : ℚ := (v.commentCount : ℚ) / max 1 (v.viewCount : ℚ)
    let likeScore : ℚ :=
      if likeRate ≥ 5/100 then 125/100
      else if likeRate ≥ 2/100 then 115/100
      else if likeRate ≥ 1/100 then 105/100
      else 1
    let commentScore : ℚ :=
      if commentRate ≥ 5/1000 then 12/10
      else if commentRate ≥ 1/1000 then 11/10
      else if commentRate ≥ 5/10000 then 102/100
      else 1
    (likeScore + commentScore) / 2

/-- The quality indicator generation of lines 386–447. -/
def qualityIndicatorsOf (spamCount botLikeCount verifiedCount totalComments : ℕ)
    (video : Option Video) : List QualityIndicator :=
  let spamPercentage := (jsDiv (spamCount : ℚ) (totalComments : ℚ)).mulC 100
  let botPercentage := (jsDiv (botLikeCount : ℚ) (totalComments : ℚ)).mulC 100
  let verifiedPercentage := (jsDiv (verifiedCount : ℚ) (totalComments : ℚ)).mulC 100
  (if spamPercentage.ltC 5 then
      [⟨"spam", "Low Spam", "fas fa-shield-alt", "success"⟩]
    else if spamPercentage.gtC 20 then
      [⟨"spam", "High Spam", "fas fa-exclamation-triangle", "warning"⟩]
    else []) ++
  (if botPercentage.ltC 5 then
      [⟨"bot", botPercentage.roundStr ++ "% Bot Activity", "fas fa-robot", "success"⟩]
    else
      [⟨"bot", botPercentage.roundStr ++ "% Bot Activity", "fas fa-robot", "danger"⟩]) ++
  (if verifiedPercentage.gtC 10 then
      [⟨"verified", "Verified Users", "fas fa-user-check", "success"⟩]
    else []) ++
  (match video with
    | some v =>
      let likeViewRate : ℚ := (v.likeCount : ℚ) / max 1 (v.viewCount : ℚ)
      if likeViewRate > 5/100 then
        [⟨"engagement", "High Engagement", "fas fa-thumbs-up", "success"⟩]
      else if likeViewRate < 1/100 then
        [⟨"engagement", "Low Engagement", "fas fa-thumbs-down", "warning"⟩]
      else []
    | none => [])

/-- The engagement quality label of lines 449–471. -/
def engagementQualityOf (totalComments : ℕ) (video : Option Video) : String :=
  match video with
  | none => "Unknown"
  | some v =>
    let likeViewRate : ℚ := (v.likeCount : ℚ) / max 1 (v.viewCount : ℚ)
    let commentEngagementRate : ℚ := (totalComments : ℚ) / max 1 ((v.viewCount : ℚ) / 1000)
    let likeScore : ℤ :=
      if likeViewRate ≥ 8/100 then 3
      else if likeViewRate ≥ 5/100 then 2
      else if likeViewRate ≥ 3/100 then 1
      else if likeViewRate ≥ 1/100 then 0
      else -1
    let commentScore : ℤ :=
      if commentEngagementRate ≥ 1 then 3
      else if commentEngagementRate ≥ 5/10 then 2
      else if commentEngagementRate ≥ 2/10 then 1
      else if commentEngagementRate ≥ 1/10 then 0
      else -1
    let totalEngagementScore := likeScore + commentScore
    if totalEngagementScore ≥ 5 then "Exceptional"
    else if totalEngagementScore ≥ 3 then "Excellent"
    else if totalEngagementScore ≥ 1 then "Good"
    else if totalEngagementScore ≥ -1 then "Fair"
    else if totalEngagementScore ≥ -3 then "Poor"
    else "Very Poor"

/-- `SentimentService.analyzeComments` (lines 184–488), assembled from the
stages above. The unused local `engagedComments` of lines 327–329 is omitted
(it is computed by the code but never read). In the `total > 0` branch the
full comment list is non-empty, so the JavaScript divisions there never see a
zero divisor and `ℚ` division is faithful. `confidence || 0` maps a falsy
(zero) confidence to `0` and is the identity here. -/
def analyzeComments (healthy : Bool) (oracle : List String → Option (List LabeledScore))
    (shuffle : List Comment → List Comment) (comments : List Comment)
    (video : Option Video) : InsertAnalysis :=
  let commentsToAnalyze := sampleComments shuffle comments
  let totalComments := commentsToAnalyze.length
  let annotated := annotatedOf healthy oracle shuffle comments
  let positiveCount := annotated.countP (fun p => p.2.sentiment = SentimentLabel.positive)
  let negativeCount := annotated.countP (fun p => p.2.sentiment = SentimentLabel.negative)
  let neutralCount := annotated.countP (fun p => p.2.sentiment = SentimentLabel.neutral)
  let suspiciousCount := commentsToAnalyze.countP (fun c => detectSpam c || detectBotBehavior c)
  let spamCount := commentsToAnalyze.countP (fun c => detectSpam c)
  let botLikeCount := commentsToAnalyze.countP (fun c => detectBotBehavior c)
  let verifiedCount := commentsToAnalyze.countP (fun c => c.isVerified)
  let total := positiveCount + negativeCount + neutralCount
  let weightedPos := weightedSumFor annotated SentimentLabel.positive
  let weightedNeg := weightedSumFor annotated SentimentLabel.negative
  let weightedNeu := weightedSumFor annotated SentimentLabel.neutral
  let totalWeight := weightedPos + weightedNeu + weightedNeg
  let baseRating : ℚ :=
    if total > 0 then
      round2 (clampQ 0 5
        ((weightedPos * 1 + weightedNeu * (8/10) + weightedNeg * (-(2/10))) / totalWeight * 5))
    else 0
  let confidence : ℚ :=
    if total > 0 then
      let sampleRate : ℚ := (total : ℚ) / (comments.length : ℚ)
      let distributionBalance : ℚ :=
        1 - |(positiveCount : ℚ) - (negativeCount : ℚ)| / (total : ℚ)
      min 1 (sampleRate * distributionBalance * ((total : ℚ) / 100))
    else 0
  let engagementScore := engagementScoreOf video
  let rating := round2 (clampQ 0 5 (baseRating * engagementScore))
  { videoId := ((commentsToAnalyze.head?).map (fun c => c.videoId)).getD ""
    totalComments := totalComments
    positiveCount := positiveCount
    negativeCount := negativeCount
    neutralCount := neutralCount
    suspiciousCount := suspiciousCount
    spamCount := spamCount
    botLikeCount := botLikeCount
    verifiedCount := verifiedCount
    rating := rating
    confidence := confidence
    qualityIndicators := qualityIndicatorsOf spamCount botLikeCount verifiedCount totalComments video
    engagementQuality := engagementQualityOf totalComments video }

/-! Helper lemmas about the embedded operations. -/

theorem length_stableInsertDesc (key : Comment → ℚ) (a : Comment) (l : List Comment) :
    (stableInsertDesc key a l).length = l.length + 1 := by
  induction l with
  | nil => rfl
  | cons b t ih =>
    unfold stableInsertDesc
    split
    · simp [ih]
    · simp

theorem length_stableSortDesc (key : Comment → ℚ) (l : List Comment) :
    (stableSortDesc key l).length = l.length := by
  induction l with
  | nil => rfl
  | cons a t ih => simp [stableSortDesc, length_stableInsertDesc, ih]

theorem perm_stableInsertDesc (key : Comment → ℚ) (a : Comment) (l : List Comment) :
    (stableInsertDesc key a l).Perm (a :: l) := by
  induction l with
  | nil => exact List.Perm.refl _
  | cons b t ih =>
    unfold stableInsertDesc
    split
    · exact ((ih.cons b).trans (List.Perm.swap a b t))
    · exact List.Perm.refl _

theorem perm_stableSortDesc (key : Comment → ℚ) (l : List Comment) :
    (stableSortDesc key l).Perm l := by
  induction l with
  | nil => exact List.Perm.refl _
  | cons a t ih =>
    exact (perm_stableInsertDesc key a (stableSortDesc key t)).trans (ih.cons a)

theorem chooseMode_fast {n : ℕ} (h : n < 200) : chooseMode n = FAST := by
  unfold chooseMode
  rw [if_pos h]

theorem chooseMode_balanced {n : ℕ} (h1 : ¬ n < 200) (h2 : ¬ n > 1000) :
    chooseMode n = BALANCED := by
  unfold chooseMode
  rw [if_neg h1, if_neg h2]

theorem chooseMode_comprehensive {n : ℕ} (h1 : ¬ n < 200) (h2 : n > 1000) :
    chooseMode n = COMPREHENSIVE := by
  unfold chooseMode
  rw [if_neg h1, if_pos h2]

theorem sampleComments_fast {comments : List Comment}
    (shuffle : List Comment → List Comment) (h : comments.length < 200) :
    sampleComments shuffle comments = (stableSortDesc engagementScore comments).take 150 := by
  unfold sampleComments
  rw [chooseMode_fast h]
  simp +decide [FAST]

theorem sampleComments_balanced {comments : List Comment}
    (shuffle : List Comment → List Comment) (h1 : ¬ comments.length < 200)
    (h2 : ¬ comments.length > 1000) :
    sampleComments shuffle comments =
      (stableSortDesc engagementScore comments).take 120 ++
      ((stableSortDesc engagementScore comments).drop
        (((stableSortDesc engagementScore comments).length * 3) / 10)).take 120 ++
      (shuffle ((stableSortDesc engagementScore comments).drop 240)).take 60 := by
  unfold sampleComments
  rw [chooseMode_balanced h1 h2]
  simp +decide [BALANCED, FAST, List.append_assoc]

theorem sampleComments_comprehensive {comments : List Comment}
    (shuffle : List Comment → List Comment) (h1 : ¬ comments.length < 200)
    (h2 : comments.length > 1000) :
    sampleComments shuffle comments =
      (stableSortDesc engagementScore comments).take 200 ++
      ((stableSortDesc engagementScore comments).drop
        (((stableSortDesc engagementScore comments).length * 3) / 10)).take 200 ++
      (shuffle ((stableSortDesc engagementScore comments).drop 400)).take 100 := by
  unfold sampleComments
  rw [chooseMode_comprehensive h1 h2]
  simp +decide [COMPREHENSIVE, FAST, BALANCED, List.append_assoc]

theorem length_sampleComments {comments : List Comment}
    {shuffle : List Comment → List Comment}
    (hsh : ∀ l, (shuffle l).length = l.length) :
    (sampleComments shuffle comments).length =
      if comments.length < 200 then min 150 comments.length
      else if comments.length > 1000 then 500
      else 240 + min 60 (comments.length - 240) := by
  by_cases h : comments.length < 200
  · rw [sampleComments_fast shuffle h, if_pos h]
    simp [length_stableSortDesc]
  · by_cases h2 : comments.length > 1000
    · rw [sampleComments_comprehensive shuffle h h2, if_neg h, if_pos h2]
      simp only [List.length_append, List.length_take, List.length_drop,
        length_stableSortDesc, hsh]
      omega
    · rw [sampleComments_balanced shuffle h h2, if_neg h, if_neg h2]
      simp only [List.length_append, List.length_take, List.length_drop,
        length_stableSortDesc, hsh]
      omega

theorem chunkList_flatten_map (f : String → SentimentResult) (bs : ℕ) (l : List String)
    (hbs : 0 < bs) :
    ((chunkList bs l).map (fun b => b.map f)).flatten = l.map f := by
  induction bs, l using chunkList.induct with
  | case1 bs => simp [chunkList]
  | case2 a t => omega
  | case3 b a t ih =>
    rw [chunkList]
    simp only [List.map_cons, List.flatten_cons, ih (Nat.succ_pos b)]
    rw [← List.map_append, List.take_append_drop]
    simp

theorem length_chunkList_flatten (bs : ℕ) (l : List String) (hbs : 0 < bs) :
    (chunkList bs l).flatten = l := by
  have h := chunkList_flatten_map (fun t => ⟨SentimentLabel.neutral, 1/2⟩) bs l hbs
  induction bs, l using chunkList.induct with
  | case1 bs => simp [chunkList]
  | case2 a t => omega
  | case3 b a t ih =>
    rw [chunkList]
    simp only [List.flatten_cons, ih (Nat.succ_pos b) (chunkList_flatten_map _ _ _ (Nat.succ_pos b))]
    exact List.take_append_drop _ _

theorem runSentiments_allFail (oracle : List String → Option (List LabeledScore))
    (bs : ℕ) (texts : List String) (hbs : 0 < bs) (hfail : ∀ b, oracle b = none) :
    runSentiments true oracle bs texts = texts.map (fun _ => ⟨SentimentLabel.neutral, 1/2⟩) := by
  unfold runSentiments
  rw [if_pos rfl]
  have hmap : ∀ b : List String, analyzeSentimentsWithHuggingFace oracle b =
      b.map (fun _ => ⟨SentimentLabel.neutral, 1/2⟩) := by
    intro b
    unfold analyzeSentimentsWithHuggingFace
    rw [hfail b]
  have hfun : analyzeSentimentsWithHuggingFace oracle =
      fun b => b.map (fun _ => (⟨SentimentLabel.neutral, 1/2⟩ : SentimentResult)) := funext hmap
  rw [hfun]
  exact chunkList_flatten_map _ bs texts hbs

theorem batchSize_pos (n : ℕ) : 0 < (chooseMode n).batchSize := by
  unfold chooseMode
  split
  · decide
  · split
    · decide
    · decide

theorem length_annotatedOf (healthy : Bool) (oracle : List String → Option (List LabeledScore))
    (shuffle : List Comment → List Comment) (comments : List Comment) :
    (annotatedOf healthy oracle shuffle comments).length =
      (sampleComments shuffle comments).length := by
  unfold annotatedOf
  simp only [List.length_zip, List.length_append, List.length_replicate]
  omega

theorem countP_sentiment_partition (pairs : List (Comment × SentimentResult)) :
    pairs.countP (fun p => p.2.sentiment = SentimentLabel.positive) +
      pairs.countP (fun p => p.2.sentiment = SentimentLabel.negative) +
      pairs.countP (fun p => p.2.sentiment = SentimentLabel.neutral) = pairs.length := by
  induction pairs with
  | nil => rfl
  | cons p t ih =>
    rcases p with ⟨c, s⟩
    rcases s with ⟨lab, sc⟩
    cases lab <;> simp [List.countP_cons, ← ih] <;> omega

theorem clampQ_nonneg (q : ℚ) : 0 ≤ clampQ 0 5 q := le_max_left 0 _

theorem clampQ_le_five (q : ℚ) : clampQ 0 5 q ≤ 5 :=
  max_le (by norm_num) (min_le_left 5 q)

theorem jsRound_intCast (k : ℤ) : jsRound (k : ℚ) = k := by
  unfold jsRound
  rw [add_comm, Int.floor_add_int]
  norm_num

theorem round2_eq_div (q : ℚ) : round2 q = ((jsRound (q * 100) : ℚ)) / 100 := rfl

theorem round2_nonneg {q : ℚ} (h : 0 ≤ q) : 0 ≤ round2 q := by
  unfold round2 jsRound
  have : (0 : ℤ) ≤ ⌊q * 100 + 1/2⌋ := by
    apply Int.floor_nonneg.mpr
    positivity
  positivity

theorem round2_le_five {q : ℚ} (h : q ≤ 5) : round2 q ≤ 5 := by
  unfold round2 jsRound
  have h1 : (⌊q * 100 + 1/2⌋ : ℤ) ≤ 500 := by
    have : q * 100 + 1/2 ≤ 500 + 1/2 := by linarith
    have h2 := Int.floor_le_floor this
    have h3 : (⌊(500 : ℚ) + 1/2⌋ : ℤ) = 500 := by
      rw [add_comm]
      norm_num [Int.floor_eq_iff]
    omega
  have h4 : ((⌊q * 100 + 1/2⌋ : ℤ) : ℚ) ≤ 500 := by exact_mod_cast h1
  linarith

theorem round2_round2 (q : ℚ) : round2 (round2 q) = round2 q := by
  conv_lhs => rw [round2_eq_div, round2]
  rw [div_mul_cancel₀]
  · rw [jsRound_intCast, round2_eq_div]
  · norm_num

theorem round2_zero : round2 0 = 0 := by
  unfold round2 jsRound
  norm_num [Int.floor_eq_iff]

/-! Claim theorems. -/

/-- C6: For every result produced by analyzeComments, positiveCount +
negativeCount + neutralCount equals totalComments, and each of the counts
(positive, negative, neutral, suspicious, spam, botLike, verified) is a
non-negative integer (here a `ℕ`) at most totalComments. -/
theorem c6_count_invariants (healthy : Bool)
    (oracle : List String → Option (List LabeledScore))
    (shuffle : List Comment → List Comment) (comments : List Comment)
    (video : Option Video) :
    (analyzeComments healthy oracle shuffle comments video).positiveCount +
        (analyzeComments healthy oracle shuffle comments video).negativeCount +
        (analyzeComments healthy oracle shuffle comments video).neutralCount =
      (analyzeComments healthy oracle shuffle comments video).totalComments ∧
    (analyzeComments healthy oracle shuffle comments video).positiveCount ≤
      (analyzeComments healthy oracle shuffle comments video).totalComments ∧
    (analyzeComments healthy oracle shuffle comments video).negativeCount ≤
      (analyzeComments healthy oracle shuffle comments video).totalComments ∧
    (analyzeComments healthy oracle shuffle comments video).neutralCount ≤
      (analyzeComments healthy oracle shuffle comments video).totalComments ∧
    (analyzeComments healthy oracle shuffle comments video).suspiciousCount ≤
      (analyzeComments healthy oracle shuffle comments video).totalComments ∧
    (analyzeComments healthy oracle shuffle comments video).spamCount ≤
      (analyzeComments healthy oracle shuffle comments video).totalComments ∧
    (analyzeComments healthy oracle shuffle comments video).botLikeCount ≤
      (analyzeComments healthy oracle shuffle comments video).totalComments ∧
    (analyzeComments healthy oracle shuffle comments video).verifiedCount ≤
      (analyzeComments healthy oracle shuffle comments video).totalComments := by
  have hlen := length_annotatedOf healthy oracle shuffle comments
  have hpart := countP_sentiment_partition (annotatedOf healthy oracle shuffle comments)
  simp only [analyzeComments]
  refine ⟨by rw [hpart, hlen], ?_, ?_, ?_, ?_, ?_, ?_, ?_⟩ <;>
    exact hlen ▸ List.countP_le_length _

/-- C7: When zero comments are supplied, analyzeComments returns a result with
totalComments = 0, rating = 0 and confidence = 0 (the embedding is a total
function, so no exception can arise, and the divisions that would be 0/0 in
JavaScript are confined to the quality indicators, not these fields). -/
theorem c7_empty_input (healthy : Bool)
    (oracle : List String → Option (List LabeledScore))
    (shuffle : List Comment → List Comment) (video : Option Video) :
    (analyzeComments healthy oracle shuffle [] video).totalComments = 0 ∧
    (analyzeComments healthy oracle shuffle [] video).rating = 0 ∧
    (analyzeComments healthy oracle shuffle [] video).confidence = 0 := by
  have hs : sampleComments shuffle [] = [] := by
    unfold sampleComments chooseMode
    simp +decide [FAST]
  have ha : annotatedOf healthy oracle shuffle [] = [] := by
    unfold annotatedOf
    rw [hs]
    rfl
  refine ⟨?_, ?_, ?_⟩ <;>
    simp [analyzeComments, ha, hs, clampQ, round2_zero]

/-- C10: When zero comments are supplied, the percentage divisions are 0/0
(NaN), so the result still carries a bot quality indicator labelled
"NaN% Bot Activity" with color danger, while the spam and verified indicators
are omitted. -/
theorem c10_nan_bot_indicator (healthy : Bool)
    (oracle : List String → Option (List LabeledScore))
    (shuffle : List Comment → List Comment) (video : Option Video) :
    ((analyzeComments healthy oracle shuffle [] video).qualityIndicators.filter
        (fun q => q.type = "bot")) =
      [⟨"bot", "NaN% Bot Activity", "fas fa-robot", "danger"⟩] ∧
    ((analyzeComments healthy oracle shuffle [] video).qualityIndicators.filter
        (fun q => q.type = "spam")) = [] ∧
    ((analyzeComments healthy oracle shuffle [] video).qualityIndicators.filter
        (fun q => q.type = "verified")) = [] := by
  have hs : sampleComments shuffle [] = [] := by
    unfold sampleComments chooseMode
    simp +decide [FAST]
  have hqi : (analyzeComments healthy oracle shuffle [] video).qualityIndicators =
      qualityIndicatorsOf 0 0 0 0 video := by
    simp [analyzeComments, hs]
  rw [hqi]
  unfold qualityIndicatorsOf
  have hdiv : jsDiv ((0 : ℕ) : ℚ) ((0 : ℕ) : ℚ) = JSNum.nan := by
    unfold jsDiv
    norm_num
  rw [hdiv]
  rcases video with _ | v
  · refine ⟨?_, ?_, ?_⟩ <;> simp +decide [JSNum.mulC, JSNum.ltC, JSNum.gtC, JSNum.roundStr]
  · refine ⟨?_, ?_, ?_⟩ <;>
      simp only [JSNum.mulC, JSNum.ltC, JSNum.gtC, JSNum.roundStr] <;>
      split_ifs <;>
      simp_all +decide

/-- C9: analyzeComments sorts the caller's input array in place by engagement
score in both the top-engagement and the stratified modes (the dead fallback
branch is never selected), and on a two-element input of unequal engagement
the caller's list is afterwards no longer in its original order. -/
theorem c9_input_reordered :
    (∀ comments : List Comment,
      commentsAfterAnalyze comments = stableSortDesc engagementScore comments) ∧
    commentsAfterAnalyze
        [⟨"a", "v", "Alice Smith", "x", 0, false, false, false, false⟩,
         ⟨"b", "v", "Alice Smith", "x", 5, false, false, false, false⟩] ≠
      [⟨"a", "v", "Alice Smith", "x", 0, false, false, false, false⟩,
       ⟨"b", "v", "Alice Smith", "x", 5, false, false, false, false⟩] := by
  constructor
  · intro comments
    unfold commentsAfterAnalyze chooseMode
    split
    · rw [if_pos rfl]
    · split
      · rw [if_neg (by decide), if_pos (by decide)]
      · rw [if_neg (by decide), if_pos (by decide)]
  · intro h
    exact absurd h (by with_unfolding_all decide)

theorem clampQ_eq_self {q : ℚ} (h0 : 0 ≤ q) (h5 : q ≤ 5) : clampQ 0 5 q = q := by
  unfold clampQ
  rw [min_eq_right h5, max_eq_right h0]

/-- The ten all-positive comments of spec Scenario A (likeCount 0, unverified). -/
def c1allPositive : List Comment :=
  List.replicate 10 ⟨"c", "v", "Alice Smith", "great video", 0, false, false, false, false⟩

/-- The ten all-negative comments of spec Scenario B (likeCount 0, unverified). -/
def c1allNegative : List Comment :=
  List.replicate 10 ⟨"c", "v", "Alice Smith", "bad video", 0, false, false, false, false⟩

set_option maxRecDepth 1000000 in
/-- C1: For every non-empty annotated sample (and absent video stats, so the
engagement modifier is 1), the rating equals
clamp((weightedPos·1 + weightedNeu·0.8 + weightedNeg·(−0.2)) / totalWeight × 5, 0, 5)
rounded to 2 decimals, with the per-comment weight 1 + likeCount/10 +
(0.5 if verified); in particular ten all-positive comments with likeCount 0,
unverified, no video stats give rating 5, and ten all-negative such comments
give rating 0. -/
theorem c1_base_rating_formula :
    (∀ (healthy : Bool) (oracle : List String → Option (List LabeledScore))
        (shuffle : List Comment → List Comment) (comments : List Comment),
      sampleComments shuffle comments ≠ [] →
      (analyzeComments healthy oracle shuffle comments none).rating =
        round2 (clampQ 0 5
          ((weightedSumFor (annotatedOf healthy oracle shuffle comments)
                SentimentLabel.positive * 1 +
              weightedSumFor (annotatedOf healthy oracle shuffle comments)
                SentimentLabel.neutral * (8/10) +
              weightedSumFor (annotatedOf healthy oracle shuffle comments)
                SentimentLabel.negative * (-(2/10))) /
            (weightedSumFor (annotatedOf healthy oracle shuffle comments)
                SentimentLabel.positive +
              weightedSumFor (annotatedOf healthy oracle shuffle comments)
                SentimentLabel.neutral +
              weightedSumFor (annotatedOf healthy oracle shuffle comments)
                SentimentLabel.negative) * 5))) ∧
    (analyzeComments false (fun _ => none) id c1allPositive none).rating = 5 ∧
    (analyzeComments false (fun _ => none) id c1allNegative none).rating = 0 := by
  refine ⟨?_, by with_unfolding_all decide, by with_unfolding_all decide⟩
  intro healthy oracle shuffle comments hne
  have hcond : 0 <
      (annotatedOf healthy oracle shuffle comments).countP
          (fun p => p.2.sentiment = SentimentLabel.positive) +
        (annotatedOf healthy oracle shuffle comments).countP
          (fun p => p.2.sentiment = SentimentLabel.negative) +
        (annotatedOf healthy oracle shuffle comments).countP
          (fun p => p.2.sentiment = SentimentLabel.neutral) := by
    rw [countP_sentiment_partition, length_annotatedOf]
    exact List.length_pos.mpr hne
  simp only [analyzeComments, if_pos hcond, engagementScoreOf, mul_one]
  rw [clampQ_eq_self (round2_nonneg (clampQ_nonneg _)) (round2_le_five (clampQ_le_five _)),
    round2_round2]

set_option maxRecDepth 1000000 in
/-- Witness for C1: the formula part applied at the concrete Scenario A input,
with its non-emptiness hypothesis discharged by evaluation. -/
theorem c1_base_rating_formula_witness :
    (analyzeComments false (fun _ => none) id c1allPositive none).rating =
      round2 (clampQ 0 5
        ((weightedSumFor (annotatedOf false (fun _ => none) id c1allPositive)
              SentimentLabel.positive * 1 +
            weightedSumFor (annotatedOf false (fun _ => none) id c1allPositive)
              SentimentLabel.neutral * (8/10) +
            weightedSumFor (annotatedOf false (fun _ => none) id c1allPositive)
              SentimentLabel.negative * (-(2/10))) /
          (weightedSumFor (annotatedOf false (fun _ => none) id c1allPositive)
              SentimentLabel.positive +
            weightedSumFor (annotatedOf false (fun _ => none) id c1allPositive)
              SentimentLabel.neutral +
            weightedSumFor (annotatedOf false (fun _ => none) id c1allPositive)
              SentimentLabel.negative) * 5)) :=
  c1_base_rating_formula.1 false (fun _ => none) id c1allPositive
    (by with_unfolding_all decide)

/-- The 200 identical comments used to refute C2 and the stratified special
case of C3: 200 is not below 200, so BALANCED/stratified is selected, and the
top slice (indices 0–119) overlaps the middle slice (indices 60–179) while
indices 180–199 are dropped, yielding 240 sampled entries. -/
def c2input : List Comment :=
  List.replicate 200 ⟨"c", "v", "Alice Smith", "ok", 0, false, false, false, false⟩

set_option maxRecDepth 1000000 in
/-- Counterexample to C2: for 200 comments the result's totalComments is 240,
but min(fullCommentCount, mode.maxComments) = min(200, 300) = 200. -/
theorem c2_totalComments_counterexample :
    (analyzeComments false (fun _ => none) id c2input none).totalComments = 240 ∧
    min c2input.length (chooseMode c2input.length).maxComments = 200 :=
  ⟨by with_unfolding_all decide, by with_unfolding_all decide⟩

theorem maxComments_chooseMode (n : ℕ) :
    (chooseMode n).maxComments = if n < 200 then 150 else if n > 1000 then 500 else 300 := by
  unfold chooseMode FAST BALANCED COMPREHENSIVE
  split_ifs <;> rfl

/-- C2 amended: totalComments = min(fullCommentCount, mode.maxComments) holds
whenever the full count is below 200 or at least 240 (length-preserving
shuffle assumed); in the remaining BALANCED window 200 ≤ fullCount < 240 the
overlapping stratified slices give totalComments = 240 instead. -/
theorem c2_totalComments_amended (healthy : Bool)
    (oracle : List String → Option (List LabeledScore))
    (shuffle : List Comment → List Comment) (comments : List Comment)
    (video : Option Video) (hsh : ∀ l, (shuffle l).length = l.length) :
    (¬ (200 ≤ comments.length ∧ comments.length < 240) →
      (analyzeComments healthy oracle shuffle comments video).totalComments =
        min comments.length (chooseMode comments.length).maxComments) ∧
    ((200 ≤ comments.length ∧ comments.length < 240) →
      (analyzeComments healthy oracle shuffle comments video).totalComments = 240) := by
  have htot : (analyzeComments healthy oracle shuffle comments video).totalComments =
      (sampleComments shuffle comments).length := by
    simp only [analyzeComments]
  rw [htot, length_sampleComments hsh, maxComments_chooseMode]
  constructor
  · intro hnot
    split_ifs <;> omega
  · intro hin
    split_ifs <;> omega

/-- Witness for C2 amended: a one-comment list, where totalComments is
min(1, 150) = 1. -/
theorem c2_totalComments_amended_witness :
    (analyzeComments false (fun _ => none) id
        [⟨"c", "v", "Alice Smith", "ok", 0, false, false, false, false⟩]
        none).totalComments =
      min ([⟨"c", "v", "Alice Smith", "ok", 0, false, false, false, false⟩] :
          List Comment).length
        (chooseMode ([⟨"c", "v", "Alice Smith", "ok", 0, false, false, false, false⟩] :
          List Comment).length).maxComments :=
  (c2_totalComments_amended false (fun _ => none) id _ none (fun _ => rfl)).1
    (by with_unfolding_all decide)

/-- The 200 identical comments refuting C3 (same shape as the C2 input, its
own copy so the two claims do not share a counterexample artifact). -/
def c3input : List Comment :=
  List.replicate 200 ⟨"d", "v", "Alice Smith", "ok", 0, false, false, false, false⟩

set_option maxRecDepth 1000000 in
/-- Counterexample to C3: 200 comments are fewer than the selected mode's
maxComments (300), yet the sampled list is not a permutation of the input —
it has 240 entries (with duplicates and dropped comments), because the code
has no "return all comments" special case in the stratified modes. -/
theorem c3_small_input_counterexample :
    c3input.length < (chooseMode c3input.length).maxComments ∧
    ¬ (sampleComments id c3input).Perm c3input := by
  constructor
  · with_unfolding_all decide
  · intro h
    have hlen := h.length_eq
    have h240 : (sampleComments id c3input).length = 240 := by with_unfolding_all decide
    have h200 : c3input.length = 200 := by with_unfolding_all decide
    omega

/-- C3 amended: when the full comment count is below 150 (so the FAST mode is
selected and the count is under its maxComments), the sampler returns exactly
the engagement-sorted full list — every comment exactly once, no
stratification; in the stratified modes no such special case exists. -/
theorem c3_small_input_amended (shuffle : List Comment → List Comment)
    (comments : List Comment) (h : comments.length < 150) :
    sampleComments shuffle comments = stableSortDesc engagementScore comments ∧
    (sampleComments shuffle comments).Perm comments := by
  have hall : sampleComments shuffle comments = stableSortDesc engagementScore comments := by
    rw [sampleComments_fast shuffle (by omega)]
    exact List.take_of_length_le (by rw [length_stableSortDesc]; omega)
  exact ⟨hall, hall ▸ perm_stableSortDesc _ _⟩

/-- Witness for C3 amended at a concrete one-comment input. -/
theorem c3_small_input_amended_witness :
    ([⟨"d", "v", "Alice Smith", "ok", 0, false, false, false, false⟩] :
        List Comment).length < 150 ∧
    (sampleComments id [⟨"d", "v", "Alice Smith", "ok", 0, false, false, false, false⟩] =
      stableSortDesc engagementScore
        [⟨"d", "v", "Alice Smith", "ok", 0, false, false, false, false⟩] ∧
    (sampleComments id
        [⟨"d", "v", "Alice Smith", "ok", 0, false, false, false, false⟩]).Perm
      [⟨"d", "v", "Alice Smith", "ok", 0, false, false, false, false⟩]) :=
  ⟨by with_unfolding_all decide, c3_small_input_amended id _ (by with_unfolding_all decide)⟩

/-- 40 identical comments whose text the keyword fallback classifies as
negative; with FAST batch size 30 they form two batches (30 and 10 texts). -/
def c4input : List Comment :=
  List.replicate 40 ⟨"c", "v", "Alice Smith", "bad", 0, false, false, false, false⟩

/-- An oracle that answers the 30-text batch successfully (all positive) and
fails the 10-text batch (its request rejects). -/
def c4oracle (texts : List String) : Option (List LabeledScore) :=
  if texts.length = 30 then some (List.replicate 30 ⟨"positive", 9/10⟩) else none

set_option maxRecDepth 1000000 in
/-- Counterexample to C4: the health check is positive and one batch's request
fails, so per the claim all 40 texts should get the keyword fallback (here:
negative, score 0.2, since the text is "bad"); instead the successful batch's
30 positive results are kept and only the failed batch's 10 texts become
neutral — positiveCount is 30 and negativeCount is 0, not 40. -/
theorem c4_fallback_counterexample :
    simpleSentimentAnalysis ("bad") = ⟨SentimentLabel.negative, 2/10⟩ ∧
    (analyzeComments true c4oracle id c4input none).positiveCount = 30 ∧
    (analyzeComments true c4oracle id c4input none).negativeCount = 0 ∧
    (analyzeComments true c4oracle id c4input none).neutralCount = 10 := by
  refine ⟨?_, ?_, ?_, ?_⟩ <;> with_unfolding_all decide

/-- C4 amended: a failed batch is absorbed by the catch inside
`analyzeSentimentsWithHuggingFace`, which yields neutral sentiment with score
0.5 for that batch's texts only — not the keyword classifier, and successful
batches keep their results (see the counterexample); in particular when every
batch request fails, every sampled comment is annotated neutral/0.5 and the
whole sample is counted neutral. -/
theorem c4_fallback_amended (oracle : List String → Option (List LabeledScore))
    (shuffle : List Comment → List Comment) (comments : List Comment)
    (video : Option Video) (hfail : ∀ b, oracle b = none) :
    (analyzeComments true oracle shuffle comments video).neutralCount =
      (analyzeComments true oracle shuffle comments video).totalComments ∧
    (analyzeComments true oracle shuffle comments video).positiveCount = 0 ∧
    (analyzeComments true oracle shuffle comments video).negativeCount = 0 := by
  have hrun := runSentiments_allFail oracle (chooseMode comments.length).batchSize
    ((sampleComments shuffle comments).map (fun c => c.textOriginal))
    (batchSize_pos comments.length) hfail
  have hann : annotatedOf true oracle shuffle comments =
      (sampleComments shuffle comments).zip
        (((sampleComments shuffle comments).map (fun c => c.textOriginal)).map
          (fun _ => (⟨SentimentLabel.neutral, 1/2⟩ : SentimentResult))) := by
    unfold annotatedOf
    simp only [hrun, List.length_map, Nat.sub_self, List.replicate_zero, List.append_nil]
  have hmem : ∀ p ∈ annotatedOf true oracle shuffle comments,
      p.2 = (⟨SentimentLabel.neutral, 1/2⟩ : SentimentResult) := by
    intro p hp
    rw [hann] at hp
    rcases p with ⟨c, s⟩
    rcases List.of_mem_zip hp with ⟨-, hs⟩
    rcases List.mem_map.mp hs with ⟨-, -, h⟩
    exact h.symm
  have hneu : (annotatedOf true oracle shuffle comments).countP
      (fun p => p.2.sentiment = SentimentLabel.neutral) =
      (annotatedOf true oracle shuffle comments).length := by
    apply List.countP_eq_length.mpr
    intro p hp
    rw [hmem p hp]
    simp
  have hpos : (annotatedOf true oracle shuffle comments).countP
      (fun p => p.2.sentiment = SentimentLabel.positive) = 0 := by
    apply List.countP_eq_zero.mpr
    intro p hp
    rw [hmem p hp]
    simp
  have hneg : (annotatedOf true oracle shuffle comments).countP
      (fun p => p.2.sentiment = SentimentLabel.negative) = 0 := by
    apply List.countP_eq_zero.mpr
    intro p hp
    rw [hmem p hp]
    simp
  refine ⟨?_, ?_, ?_⟩ <;>
    simp only [analyzeComments, hneu, hpos, hneg, length_annotatedOf]

/-- Witness for C4 amended: an all-failing oracle on one comment. -/
theorem c4_fallback_amended_witness :
    (analyzeComments true (fun _ => none) id
        [⟨"c", "v", "Alice Smith", "bad", 0, false, false, false, false⟩]
        none).neutralCount =
      (analyzeComments true (fun _ => none) id
        [⟨"c", "v", "Alice Smith", "bad", 0, false, false, false, false⟩]
        none).totalComments :=
  (c4_fallback_amended (fun _ => none) id _ none (fun _ => rfl)).1

/-- 151 comments of equal engagement: 100 classified positive by the keyword
fallback and 51 neutral; FAST mode samples the first (stable-sorted) 150, so
the sampled distribution is 100 positive / 50 neutral and the confidence is
(150/151) · (1 − 100/150) · (150/100) = 75/151, which is not a two-decimal
value. -/
def c5input : List Comment :=
  List.replicate 100 ⟨"c", "v", "Alice Smith", "good", 0, false, false, false, false⟩ ++
    List.replicate 51 ⟨"c", "v", "Alice Smith", "hmmm", 0, false, false, false, false⟩

set_option maxRecDepth 1000000 in
/-- Counterexample to C5: the result's confidence is 75/151, which is not of
the form k/100 — the code never rounds the confidence to 2 decimals. -/
theorem c5_rounding_counterexample :
    (analyzeComments false (fun _ => none) id c5input none).confidence = 75/151 ∧
    ¬ ∃ k : ℤ, (analyzeComments false (fun _ => none) id c5input none).confidence =
      (k : ℚ) / 100 := by
  have hval : (analyzeComments false (fun _ => none) id c5input none).confidence = 75/151 := by
    with_unfolding_all decide
  refine ⟨hval, ?_⟩
  rintro ⟨k, hk⟩
  rw [hval] at hk
  have hk2 : (7500 : ℚ) = 151 * (k : ℚ) := by
    field_simp at hk
    linarith
  have hk3 : (7500 : ℤ) = 151 * k := by exact_mod_cast hk2
  omega

/-- C5 amended: for every input the rating lies in [0,5] and is a two-decimal
value, and the confidence lies in [0,1] — but the confidence is not rounded
(see the counterexample). -/
theorem c5_bounds_amended (healthy : Bool)
    (oracle : List String → Option (List LabeledScore))
    (shuffle : List Comment → List Comment) (comments : List Comment)
    (video : Option Video) :
    0 ≤ (analyzeComments healthy oracle shuffle comments video).rating ∧
    (analyzeComments healthy oracle shuffle comments video).rating ≤ 5 ∧
    (∃ k : ℤ, (analyzeComments healthy oracle shuffle comments video).rating =
      (k : ℚ) / 100) ∧
    0 ≤ (analyzeComments healthy oracle shuffle comments video).confidence ∧
    (analyzeComments healthy oracle shuffle comments video).confidence ≤ 1 := by
  have hrating : (analyzeComments healthy oracle shuffle comments video).rating =
      round2 (clampQ 0 5
        ((if 0 < (annotatedOf healthy oracle shuffle comments).countP
              (fun p => p.2.sentiment = SentimentLabel.positive) +
            (annotatedOf healthy oracle shuffle comments).countP
              (fun p => p.2.sentiment = SentimentLabel.negative) +
            (annotatedOf healthy oracle shuffle comments).countP
              (fun p => p.2.sentiment = SentimentLabel.neutral) then
            round2 (clampQ 0 5
              ((weightedSumFor (annotatedOf healthy oracle shuffle comments)
                    SentimentLabel.positive * 1 +
                  weightedSumFor (annotatedOf healthy oracle shuffle comments)
                    SentimentLabel.neutral * (8/10) +
                  weightedSumFor (annotatedOf healthy oracle shuffle comments)
                    SentimentLabel.negative * (-(2/10))) /
                (weightedSumFor (annotatedOf healthy oracle shuffle comments)
                    SentimentLabel.positive +
                  weightedSumFor (annotatedOf healthy oracle shuffle comments)
                    SentimentLabel.neutral +
                  weightedSumFor (annotatedOf healthy oracle shuffle comments)
                    SentimentLabel.negative) * 5))
          else 0) * engagementScoreOf video)) := by
    simp only [analyzeComments]
  refine ⟨?_, ?_, ?_, ?_, ?_⟩
  · rw [hrating]
    exact round2_nonneg (clampQ_nonneg _)
  · rw [hrating]
    exact round2_le_five (clampQ_le_five _)
  · rw [hrating]
    exact ⟨_, round2_eq_div _⟩
  · simp only [analyzeComments]
    split_ifs with htot
    · apply le_min
      · norm_num
      · apply mul_nonneg
        apply mul_nonneg
        · positivity
        · rw [sub_nonneg]
          rw [div_le_one (by exact_mod_cast htot)]
          rw [abs_sub_le_iff]
          constructor
          · push_cast
            have h1 : (0 : ℚ) ≤ ((annotatedOf healthy oracle shuffle comments).countP
                (fun p => p.2.sentiment = SentimentLabel.negative) : ℚ) := by positivity
            have h2 : (0 : ℚ) ≤ ((annotatedOf healthy oracle shuffle comments).countP
                (fun p => p.2.sentiment = SentimentLabel.neutral) : ℚ) := by positivity
            linarith
          · push_cast
            have h1 : (0 : ℚ) ≤ ((annotatedOf healthy oracle shuffle comments).countP
                (fun p => p.2.sentiment = SentimentLabel.positive) : ℚ) := by positivity
            have h2 : (0 : ℚ) ≤ ((annotatedOf healthy oracle shuffle comments).countP
                (fun p => p.2.sentiment = SentimentLabel.neutral) : ℚ) := by positivity
            linarith
        · positivity
    · norm_num
  · simp only [analyzeComments]
    split_ifs with htot
    · exact min_le_left 1 _
    · norm_num

theorem ite_add_shift (c : Prop) [Decidable c] (x a : ℚ) :
    (if c then x + a else x) = x + (if c then a else 0) := by
  split <;> simp

theorem ite_add_shift2 (c : Prop) [Decidable c] (x a b : ℚ) :
    (if c then x + a else x + b) = x + (if c then a else b) := by
  split <;> rfl

theorem ite_sub_shift (c : Prop) [Decidable c] (x a : ℚ) :
    (if c then x - a else x) = x - (if c then a else 0) := by
  split <;> simp

/-- Trust score exactly as claim C8 lists it: base 5, the listed bonuses and
penalties, and nothing else, clamped to [0,10] (for comparison against
`calculateTrustScore`). -/
def specTrustScoreListed (c : Comment) : ℚ :=
  max 0 (min 10
    (5 + (if c.isVerified then 3 else 0) +
      (if c.likeCount > 20 then 2 else if c.likeCount > 5 then 1 else 0) +
      (if jsStrLen c.textOriginal > 100 then 3/2
        else if jsStrLen c.textOriginal > 50 then 1 else 0) +
      (if hasSpecificDetails c.textOriginal then 1 else 0) +
      (if hasPersonalExperience c.textOriginal then 1 else 0) +
      (if hasQuestions c.textOriginal then 1/2 else 0) -
      (if c.isSpam then 5 else 0) -
      (if c.isBotLike then 4 else 0) -
      (if c.isSuspicious then 3 else 0) -
      (if c.likeCount = 0 ∧ jsStrLen c.textOriginal < 20 then 2 else 0) -
      (if hasAllCaps c.textOriginal then 1 else 0) -
      (if hasExcessivePunctuation c.textOriginal then 1/2 else 0) -
      (if hasEmojis c.textOriginal ∧ jsStrLen c.textOriginal < 50 then 1/2 else 0)))

/-- Trust score as C8 must be amended: the listed adjustments plus the
engagement bonus the code also applies — +1 when
likeCount / max(1, textLength/10) > 2. -/
def specTrustScoreAmended (c : Comment) : ℚ :=
  max 0 (min 10
    (5 + (if c.isVerified then 3 else 0) +
      (if c.likeCount > 20 then 2 else if c.likeCount > 5 then 1 else 0) +
      (if jsStrLen c.textOriginal > 100 then 3/2
        else if jsStrLen c.textOriginal > 50 then 1 else 0) +
      (if hasSpecificDetails c.textOriginal then 1 else 0) +
      (if hasPersonalExperience c.textOriginal then 1 else 0) +
      (if hasQuestions c.textOriginal then 1/2 else 0) +
      (if (c.likeCount : ℚ) / max 1 ((jsStrLen c.textOriginal : ℚ) / 10) > 2 then 1 else 0) -
      (if c.isSpam then 5 else 0) -
      (if c.isBotLike then 4 else 0) -
      (if c.isSuspicious then 3 else 0) -
      (if c.likeCount = 0 ∧ jsStrLen c.textOriginal < 20 then 2 else 0) -
      (if hasAllCaps c.textOriginal then 1 else 0) -
      (if hasExcessivePunctuation c.textOriginal then 1/2 else 0) -
      (if hasEmojis c.textOriginal ∧ jsStrLen c.textOriginal < 50 then 1/2 else 0)))

/-- Counterexample to C8: the comment "hello" with 21 likes (no flags, not
verified) scores 5 + 2 + 1 = 8 in the code — the +1 coming from the
like-to-length engagement bonus — while the claim's listed adjustments give
only 5 + 2 = 7. -/
theorem c8_trust_score_counterexample :
    calculateTrustScore ⟨"c", "v", "Alice Smith", "hello", 21, false, false, false, false⟩ = 8 ∧
    specTrustScoreListed ⟨"c", "v", "Alice Smith", "hello", 21, false, false, false, false⟩ = 7 :=
  ⟨by with_unfolding_all decide, by with_unfolding_all decide⟩

/-- C8 amended: calculateTrustScore equals the claim's listed adjustments plus
the additional engagement bonus (+1 when likeCount / max(1, length/10) > 2),
clamped to [0,10]. -/
theorem c8_trust_score_amended (c : Comment) :
    calculateTrustScore c = specTrustScoreAmended c := by
  simp only [calculateTrustScore, specTrustScoreAmended, ite_add_shift, ite_add_shift2,
    ite_sub_shift]
